import Mathlib

/-!
Shallow embedding of the `data-visualization` repository: the
download-and-cache fetcher `download_input` and the frame-render loop of
`make_plots`, from `GISS_histograms/main.py` and
`temperature_histograms/main.py`.

Paths and tokens are modelled as `List Char`; machine floats on the data
path are modelled as `ℚ` (all constants involved, `-2.5` and `2.5`, and the
counter arithmetic are exactly representable); Python exceptions are
modelled with `Except`.
-/

namespace DataViz

/-- Python exceptions relevant to `download_input`: a network error raised
by `requests.get`, or a filesystem error raised by the `open`/`write`
block. -/
inductive Exc
  | netErr
  | fsErr
deriving DecidableEq

/-- Python `str.split(sep)` for a one-character separator. -/
def splitOnChar (sep : Char) : List Char → List (List Char)
  | [] => [[]]
  | c :: cs =>
    match splitOnChar sep cs with
    | [] => [[]]
    | r :: rs => if c = sep then [] :: r :: rs else (c :: r) :: rs

/-- The Python format expression `'{0}/{1}'.format(a, b)` used to build paths. -/
def fmtJoin (a b : List Char) : List Char := a ++ '/' :: b

def urlStr : String :=
  "http://berkeleyearth.lbl.gov/auto/Global/Gridded/Land_and_Ocean_LatLong1.nc"

/-- The hardcoded download URL. -/
def url : List Char := urlStr.toList

def savedirStr : String := "./data"

/-- The hardcoded cache directory `./data`. -/
def savedir : List Char := savedirStr.toList

/-- `fn = '{0}/{1}'.format(savedir, url.split('/')[-1])`. -/
def fn : List Char := fmtJoin savedir ((splitOnChar '/' url).getLastD [])

/-- The path the code actually opens for writing:
`'{0}/{1}'.format(savedir, fn)` — note the argument is `fn`, which already
begins with `savedir`. -/
def writeTarget : List Char := fmtJoin savedir fn

/-- POSIX view of a relative path as its component list; a `.` component is
the identity, so it is dropped.  Two path strings denote the same file
exactly when they normalize to the same component list. -/
def normPath (p : List Char) : List (List Char) :=
  (splitOnChar '/' p).filter (fun c => c ≠ ['.'])

/-- Filesystem-and-network state visible to `download_input`: the files
that exist (as normalized component paths) and how many HTTP GET attempts
have been issued so far in the process. -/
structure IOState where
  files : List (List (List Char))
  requests : Nat
deriving DecidableEq

/-- `os.path.isfile`. -/
def isfile (st : IOState) (p : List Char) : Bool := normPath p ∈ st.files

/-- `download_input` with fault injection: `net` is the outcome of
`requests.get(url)`, `wr` the outcome of the `open`/`write` block.  The
result is `.ok (returned value, final state)`; an `.error` would be an
exception escaping the function. -/
def download_input (st : IOState) (net : Except Exc Unit) (wr : Except Exc Unit) :
    Except Exc (Option (List Char) × IOState) :=
  if isfile st fn then
    Except.ok (some fn, st)
  else
    let st1 : IOState := ⟨st.files, st.requests + 1⟩
    match net with
    | .error _ => Except.ok (none, st1)
    | .ok _ =>
      match wr with
      | .error _ => Except.ok (none, st1)
      | .ok _ => Except.ok (some fn, ⟨normPath writeTarget :: st1.files, st1.requests⟩)

/-- Trace state for process-level control flow: how many times the fetcher
(`download_input`) was invoked, and the paths passed to `xr.open_dataset`,
in order. -/
structure ProcState where
  fetches : Nat
  opened : List (Option (List Char))
deriving DecidableEq

/-- One fetcher invocation; `res` is the path it returns (`none` models a
`None` result). -/
def fetchOp (res : Option (List Char)) (s : ProcState) :
    Option (List Char) × ProcState :=
  (res, ⟨s.fetches + 1, s.opened⟩)

/-- `xr.open_dataset(p)`, recorded in the trace. -/
def openOp (p : Option (List Char)) (s : ProcState) : ProcState :=
  ⟨s.fetches, s.opened ++ [p]⟩

namespace GISS

/-- Control flow of `GISS_histograms.main.make_plots`: it rebinds
`fn = download_input()` — ignoring its argument — and opens the dataset at
that second fetch's result. -/
def make_plots (_fnArg : Option (List Char)) (fetchRes : Option (List Char))
    (s : ProcState) : ProcState :=
  let r := fetchOp fetchRes s
  openOp r.1 r.2

/-- Control flow of the `GISS_histograms` entry point:
`fn = download_input(); make_plots(fn)`. -/
def main (fetchRes1 fetchRes2 : Option (List Char)) : ProcState :=
  let r := fetchOp fetchRes1 ⟨0, []⟩
  make_plots r.1 fetchRes2 r.2

end GISS

namespace Temp

/-- Control flow of `temperature_histograms.main.make_plots`: it opens the
dataset at its `fn` argument and performs no fetch of its own. -/
def make_plots (fnArg : Option (List Char)) (s : ProcState) : ProcState :=
  openOp fnArg s

/-- Control flow of the `temperature_histograms` entry point. -/
def main (fetchRes : Option (List Char)) : ProcState :=
  let r := fetchOp fetchRes ⟨0, []⟩
  make_plots r.1 r.2

end Temp

/-- A day-1 `datetime`: every date built in `make_plots` (the epoch `d0`,
`strptime(tok, '%Y%m')` results, and month additions to `d0`) has day 1, so
`dateutil`'s day-correction never fires and year/month suffice. -/
structure YM where
  year : Int
  month : Int
deriving DecidableEq

/-- `d0 = datetime(1850, 1, 1)`. -/
def d0 : YM := ⟨1850, 1⟩

/-- `d + relativedelta(months=n)` for a day-1 date: total-month arithmetic,
with the month renormalized into 1..12 (floor division, as `dateutil`'s
carry adjustment produces). -/
def addMonths (d : YM) (n : Int) : YM :=
  let tm : Int := 12 * d.year + (d.month - 1) + n
  ⟨tm.fdiv 12, tm.fmod 12 + 1⟩

/-- `relativedelta(a, b)` for two day-1 dates: the total month difference,
normalized into `(years, months)` with `|months| ≤ 11` by the
sign-preserving divmod `dateutil` uses (truncating division). -/
def rdelta (a b : YM) : Int × Int :=
  let ms : Int := 12 * (a.year - b.year) + (a.month - b.month)
  (ms.tdiv 12, ms.tmod 12)

/-- `12 * relativedelta(d, d0).years + relativedelta(d, d0).months`, the
index computation of `make_plots` lines 88-91. -/
def monthIndex (d : YM) : Int := 12 * (rdelta d d0).1 + (rdelta d d0).2

/-- Numeric value of an ASCII digit. -/
def digitVal (c : Char) : Nat := c.toNat - 48

/-- Decimal value of a digit string. -/
def strToNat (cs : List Char) : Nat := cs.foldl (fun a c => 10 * a + digitVal c) 0

/-- `datetime.strptime(tok, '%Y%m')` restricted to year/month: a four-digit
year followed by a two-digit month in 01..12; `none` models the
`ValueError` raise on anything else. -/
def strptimeYM (cs : List Char) : Option YM :=
  if cs.length = 6 ∧ cs.all Char.isDigit then
    let m := strToNat (cs.drop 4)
    if 1 ≤ m ∧ m ≤ 12 then
      some ⟨(strToNat (cs.take 4) : Int), (m : Int)⟩
    else none
  else none

def startTokStr : String := "start"

/-- The sentinel token `'start'`. -/
def startTok : List Char := startTokStr.toList

def endTokStr : String := "end"

/-- The sentinel token `'end'`. -/
def endTok : List Char := endTokStr.toList

/-- Resolution of the `start` token to `start_idx` (lines 79-82 and 88-89):
the sentinel maps to the epoch `d0`, anything else goes through
`strptime`. -/
def resolve_start_idx (tok : List Char) : Option Int :=
  if tok = startTok then some (monthIndex d0)
  else (strptimeYM tok).map monthIndex

/-- Resolution of the `end` token to `end_idx` (lines 83-86 and 90-91): the
sentinel maps to `d0 + relativedelta(months=size)` where `size` is the time
dimension's length. -/
def resolve_end_idx (tok : List Char) (size : Nat) : Option Int :=
  if tok = endTok then some (monthIndex (addMonths d0 (size : Int)))
  else (strptimeYM tok).map monthIndex

/-- Both resolutions together, the whole of lines 79-91. -/
def resolve_range (stok etok : List Char) (size : Nat) : Option (Int × Int) :=
  match resolve_start_idx stok, resolve_end_idx etok size with
  | some a, some b => some (a, b)
  | _, _ => none

def tok185001 : List Char := ("185001" : String).toList

def tok185002 : List Char := ("185002" : String).toList

def tok196901 : List Char := ("196901" : String).toList

/-- `left_line = -2.5`, the cold threshold (the float literal `-2.5` is
exactly the rational -5/2). -/
def left_line : ℚ := mkRat (-5) 2

/-- `right_line = 2.5`, the hot threshold (the float literal `2.5` is
exactly the rational 5/2). -/
def right_line : ℚ := mkRat 5 2

/-- One time slice of `ds['temperature']`, flattened: a grid cell is `none`
for NaN and `some v` for a finite value `v`. -/
abbrev Grid := List (Option ℚ)

/-- `data = ds['temperature'][t].values.flatten(); data = data[~np.isnan(data)]`:
the finite values of frame `t`. -/
def dataAt (frames : List Grid) (t : Nat) : List ℚ :=
  (frames.getD t []).filterMap id

/-- `data[np.where(data < left_line)].shape[0]`: the per-frame cold-event
increment of line 158 (strict comparison). -/
def countCold (data : List ℚ) : Nat := data.countP (fun x => decide (x < left_line))

/-- `data[np.where(data > right_line)].shape[0]`: the per-frame hot-event
increment of line 159 (strict comparison). -/
def countHot (data : List ℚ) : Nat := data.countP (fun x => decide (right_line < x))

/-- A Python exception aborting the render loop: an out-of-range time index
(`IndexError` from `ds['temperature'][t]`) or the `ZeroDivisionError` of
`num_cold_points / data.shape[0]` on an empty frame. -/
inductive Fault
  | indexError
  | zeroDivisionError
deriving DecidableEq

/-- What one loop iteration displays for frame `t`: the two ratios of lines
160-161 (`fraction_cold`, `fraction_hot`). -/
structure FrameOut where
  t : Nat
  fraction_cold : ℚ
  fraction_hot : ℚ
deriving DecidableEq

/-- One iteration of the render loop of `temperature_histograms.make_plots`
(lines 93-191), restricted to the data path: slice and filter the frame,
bump the two running counters, and divide each by the current frame's point
count.  An empty filtered frame raises `ZeroDivisionError` at the
division. -/
def renderStep (frames : List Grid) (t : Nat) (acc : ℚ × ℚ) :
    Except Fault (FrameOut × (ℚ × ℚ)) :=
  if t < frames.length then
    if (dataAt frames t).length = 0 then Except.error Fault.zeroDivisionError
    else
      Except.ok
        (⟨t, (acc.1 + (countCold (dataAt frames t) : ℚ)) / ((dataAt frames t).length : ℚ),
            (acc.2 + (countHot (dataAt frames t) : ℚ)) / ((dataAt frames t).length : ℚ)⟩,
         (acc.1 + (countCold (dataAt frames t) : ℚ),
          acc.2 + (countHot (dataAt frames t) : ℚ)))
  else Except.error Fault.indexError

/-- Result of running the render loop: the frames rendered (one `savefig`
each, in order), the final counter pair, and the fault that aborted the
loop, if any. -/
structure LoopResult where
  outs : List FrameOut
  acc : ℚ × ℚ
  fault : Option Fault
deriving DecidableEq

/-- The render loop `for t in range(start_idx, end_idx)`, iterating
`renderStep`; an uncaught exception aborts the remaining iterations. -/
def renderLoop (frames : List Grid) : List Nat → (ℚ × ℚ) → LoopResult
  | [], acc => ⟨[], acc, none⟩
  | t :: ts, acc =>
    match renderStep frames t acc with
    | .error f => ⟨[], acc, some f⟩
    | .ok (out, acc2) =>
      let r := renderLoop frames ts acc2
      ⟨out :: r.outs, r.acc, r.fault⟩

namespace Render

/-- The data path of `temperature_histograms.make_plots`: counters start at
zero (`num_cold_points = 0.`, `num_hot_points = 0.`) and the loop runs over
`range(start_idx, end_idx)`. -/
def make_plots (frames : List Grid) (start_idx end_idx : Nat) : LoopResult :=
  renderLoop frames (List.range' start_idx (end_idx - start_idx)) (0, 0)

end Render

/-- ASCII digit character for a value in 0..9. -/
def digitChar (n : Nat) : Char := Char.ofNat (48 + n)

/-- Big-endian `w`-digit decimal rendering of `n`. -/
def digitsBE : Nat → Nat → List Char
  | 0, _ => []
  | w + 1, n => digitChar (n / 10 ^ w % 10) :: digitsBE w (n % 10 ^ w)

/-- Full (unpadded) big-endian decimal rendering of `n`, with an explicit
fuel bound on the recursion depth; `fuel ≥ n` suffices. -/
def digitsBEFull : Nat → Nat → List Char
  | 0, _ => []
  | fuel + 1, n =>
    if n < 10 then [digitChar n]
    else digitsBEFull fuel (n / 10) ++ [digitChar (n % 10)]

/-- The Python format `'{0:07d}'.format(t)`: decimal digits of `t`,
left-padded with zeros to a width of 7; a number of 8 or more digits is
rendered in full without padding. -/
def format07 (t : Nat) : List Char :=
  if t < 10 ^ 7 then digitsBE 7 t else digitsBEFull t t

def plotPrefixStr : String := "plot_"

def pngSuffixStr : String := ".png"

/-- `out_name = 'plot_NNNNNNN.png'` for frame `t` (line 187). -/
def frameName (t : Nat) : List Char :=
  plotPrefixStr.toList ++ format07 t ++ pngSuffixStr.toList

/-- Python string `<`: lexicographic comparison by code point. -/
def lexLt : List Char → List Char → Bool
  | [], [] => false
  | [], _ :: _ => true
  | _ :: _, [] => false
  | a :: xs, b :: ys => if a < b then true else if b < a then false else lexLt xs ys

/-- The image files a loop run writes, in production order: one per
rendered frame, named after its time index. -/
def writtenFiles (r : LoopResult) : List (List Char) :=
  r.outs.map (fun o => frameName o.t)

end DataViz

namespace DataViz

/-- Claim C1: the spec's caching contract says that after one successful
fetch on a cache miss, every later call is a no-request cache hit returning
the same path.  The code instead writes the body to
`'{0}/{1}'.format(savedir, fn)` (a path with `savedir` doubled), so the file
never appears at the returned path `fn`: starting from an empty cache, a
first successful call returns `fn` and records the file under
`data/data/...`, the cache test `isfile fn` is still false, and a second
call issues a second HTTP request (`requests` goes from 1 to 2). -/
theorem claim_C1 :
    download_input ⟨[], 0⟩ (Except.ok ()) (Except.ok ())
      = Except.ok (some fn, ⟨[normPath writeTarget], 1⟩)
    ∧ isfile ⟨[normPath writeTarget], 1⟩ fn = false
    ∧ download_input ⟨[normPath writeTarget], 1⟩ (Except.ok ()) (Except.ok ())
      = Except.ok (some fn, ⟨[normPath writeTarget, normPath writeTarget], 2⟩) :=
  ⟨rfl, by decide, rfl⟩

/-- Claim C2: the spec says that after a successful cache-miss fetch the
downloaded body sits at exactly the returned path.  In the code the
returned path is `fn` but the body is written to
`'{0}/{1}'.format(savedir, fn)`: after a successful cache-miss call no file
exists at the returned path, the written file sits at a different
normalized path. -/
theorem claim_C2 :
    download_input ⟨[], 0⟩ (Except.ok ()) (Except.ok ())
      = Except.ok (some fn, ⟨[normPath writeTarget], 1⟩)
    ∧ isfile ⟨[normPath writeTarget], 1⟩ fn = false
    ∧ normPath writeTarget ∈ (⟨[normPath writeTarget], 1⟩ : IOState).files
    ∧ normPath writeTarget ≠ normPath fn :=
  ⟨rfl, by decide, by decide, by decide⟩

/-- Claim C3: every network error raised by the GET and every filesystem
error raised while writing is caught inside `download_input`, which then
returns `None`; no exception escapes (`download_input` is never
`.error`). -/
theorem claim_C3 :
    (∀ st net wr, ∃ r, download_input st net wr = Except.ok r)
    ∧ (∀ st wr e, isfile st fn = false →
        download_input st (Except.error e) wr
          = Except.ok (none, ⟨st.files, st.requests + 1⟩))
    ∧ (∀ st e, isfile st fn = false →
        download_input st (Except.ok ()) (Except.error e)
          = Except.ok (none, ⟨st.files, st.requests + 1⟩)) := by
  refine ⟨?_, ?_, ?_⟩
  · intro st net wr
    unfold download_input
    split
    · exact ⟨_, rfl⟩
    · cases net with
      | error e => exact ⟨_, rfl⟩
      | ok u =>
        cases wr with
        | error e => exact ⟨_, rfl⟩
        | ok u2 => exact ⟨_, rfl⟩
  · intro st wr e h
    unfold download_input
    rw [if_neg (by simp [h])]
  · intro st e h
    unfold download_input
    rw [if_neg (by simp [h])]

/-- Witness for C3: at the concrete empty-cache state, a network error is
swallowed and `None` is returned with one GET attempt recorded. -/
theorem claim_C3_witness :
    isfile ⟨[], 0⟩ fn = false
    ∧ download_input ⟨[], 0⟩ (Except.error Exc.netErr) (Except.ok ())
        = Except.ok (none, ⟨[], 1⟩) :=
  ⟨by decide, claim_C3.2.1 ⟨[], 0⟩ (Except.ok ()) Exc.netErr (by decide)⟩

/-- Counterexample to claim C4 as stated: in the `GISS_histograms` variant
the render component itself invokes the fetcher (its `make_plots` performs
one fetch), so the process runs the fetcher twice, not exactly once. -/
theorem claim_C4_counterexample :
    (GISS.make_plots (some fn) (some fn) ⟨0, []⟩).fetches = 1
    ∧ (GISS.main (some fn) (some fn)).fetches = 2
    ∧ (2 : Nat) ≠ 1 :=
  ⟨rfl, rfl, by decide⟩

/-- Claim C4, amended: in `temperature_histograms` the fetcher runs exactly
once per process run and `make_plots` opens the dataset at exactly its path
argument, with no fetcher invocation inside the render component; in
`GISS_histograms`, `make_plots` ignores its path argument, invokes the
fetcher a second time, and opens the dataset at that second invocation's
result, so the fetcher runs twice per process run. -/
theorem claim_C4 :
    ∀ (p r r1 r2 : Option (List Char)),
      (Temp.main r).fetches = 1
      ∧ (Temp.main r).opened = [r]
      ∧ (Temp.make_plots p ⟨0, []⟩).fetches = 0
      ∧ (Temp.make_plots p ⟨0, []⟩).opened = [p]
      ∧ (GISS.main r1 r2).fetches = 2
      ∧ (GISS.main r1 r2).opened = [r2] :=
  fun _ _ _ _ => ⟨rfl, rfl, rfl, rfl, rfl, rfl⟩

/-- Witness for C4's amended claim at concrete paths. -/
theorem claim_C4_witness :
    (Temp.main (some fn)).fetches = 1
    ∧ (Temp.main (some fn)).opened = [some fn]
    ∧ (Temp.make_plots (some fn) ⟨0, []⟩).fetches = 0
    ∧ (Temp.make_plots (some fn) ⟨0, []⟩).opened = [some fn]
    ∧ (GISS.main (some fn) none).fetches = 2
    ∧ (GISS.main (some fn) none).opened = [none] :=
  claim_C4 (some fn) (some fn) (some fn) none

/-- `12 * years + months` of a `relativedelta` difference against the epoch
recovers the plain month offset. -/
theorem monthIndex_eq (d : YM) :
    monthIndex d = 12 * (d.year - 1850) + (d.month - 1) :=
  Int.tdiv_add_tmod _ 12

/-- Adding `n` months to the epoch and re-deriving the index gives `n`. -/
theorem monthIndex_addMonths (n : Int) : monthIndex (addMonths d0 n) = n := by
  rw [monthIndex_eq]
  simp only [addMonths, d0]
  have h := Int.fdiv_add_fmod (12 * 1850 + (1 - 1) + n) 12
  omega

/-- Claim C5: the sentinel `'start'` resolves to index 0, the sentinel
`'end'` to the time dimension's length, every parseable `YYYYMM` token to
`12 * (year - 1850) + (month - 1)`, and the pair `('185001', '185002')` to
`(0, 1)`. -/
theorem claim_C5 :
    resolve_start_idx startTok = some 0
    ∧ (∀ size : Nat, resolve_end_idx endTok size = some (size : Int))
    ∧ (∀ tok y m, strptimeYM tok = some ⟨y, m⟩ →
        resolve_start_idx tok = some (12 * (y - 1850) + (m - 1))
        ∧ ∀ size : Nat, resolve_end_idx tok size = some (12 * (y - 1850) + (m - 1)))
    ∧ resolve_range tok185001 tok185002 2016 = some (0, 1) := by
  refine ⟨by decide, ?_, ?_, by decide⟩
  · intro size
    unfold resolve_end_idx
    rw [if_pos rfl, monthIndex_addMonths]
  · intro tok y m h
    have hs : tok ≠ startTok := by
      intro he
      rw [he] at h
      have hn : strptimeYM startTok = none := by decide
      rw [hn] at h
      exact Option.noConfusion h
    have he : tok ≠ endTok := by
      intro he2
      rw [he2] at h
      have hn : strptimeYM endTok = none := by decide
      rw [hn] at h
      exact Option.noConfusion h
    constructor
    · unfold resolve_start_idx
      rw [if_neg hs, h, Option.map_some', monthIndex_eq]
    · intro size
      unfold resolve_end_idx
      rw [if_neg he, h, Option.map_some', monthIndex_eq]

/-- Witness for C5 at the concrete token `'196901'`. -/
theorem claim_C5_witness :
    strptimeYM tok196901 = some ⟨1969, 1⟩
    ∧ resolve_start_idx tok196901 = some (12 * (1969 - 1850) + (1 - 1)) :=
  ⟨by decide, (claim_C5.2.2.1 tok196901 1969 1 (by decide)).1⟩

/-- `renderStep` on an in-range frame with at least one finite value. -/
theorem renderStep_ok (frames : List Grid) (t : Nat) (acc : ℚ × ℚ)
    (h1 : t < frames.length) (h2 : dataAt frames t ≠ []) :
    renderStep frames t acc =
      Except.ok
        (⟨t, (acc.1 + (countCold (dataAt frames t) : ℚ)) / ((dataAt frames t).length : ℚ),
            (acc.2 + (countHot (dataAt frames t) : ℚ)) / ((dataAt frames t).length : ℚ)⟩,
         (acc.1 + (countCold (dataAt frames t) : ℚ),
          acc.2 + (countHot (dataAt frames t) : ℚ))) := by
  unfold renderStep
  rw [if_pos h1, if_neg (by simpa [List.length_eq_zero] using h2)]

/-- `renderStep` on an in-range all-NaN frame raises `ZeroDivisionError`. -/
theorem renderStep_err_empty (frames : List Grid) (t : Nat) (acc : ℚ × ℚ)
    (h1 : t < frames.length) (h2 : dataAt frames t = []) :
    renderStep frames t acc = Except.error Fault.zeroDivisionError := by
  unfold renderStep
  rw [if_pos h1, if_pos (by simp [h2])]

/-- `renderStep` on an out-of-range index raises `IndexError`. -/
theorem renderStep_err_idx (frames : List Grid) (t : Nat) (acc : ℚ × ℚ)
    (h1 : ¬ t < frames.length) :
    renderStep frames t acc = Except.error Fault.indexError := by
  unfold renderStep
  rw [if_neg h1]

/-- The render loop runs to completion exactly when every index it visits
is in range and its frame keeps at least one finite value. -/
theorem renderLoop_fault_none_iff (frames : List Grid) :
    ∀ (ts : List Nat) (acc : ℚ × ℚ),
      (renderLoop frames ts acc).fault = none
        ↔ ∀ t ∈ ts, t < frames.length ∧ dataAt frames t ≠ [] := by
  intro ts
  induction ts with
  | nil => intro acc; simp [renderLoop]
  | cons t ts ih =>
    intro acc
    by_cases h1 : t < frames.length
    · by_cases h2 : dataAt frames t = []
      · have hs := renderStep_err_empty frames t acc h1 h2
        simp [renderLoop, hs, List.forall_mem_cons, h2]
      · have hs := renderStep_ok frames t acc h1 h2
        simp [renderLoop, hs, List.forall_mem_cons, h1, h2, ih]
    · have hs := renderStep_err_idx frames t acc h1
      simp [renderLoop, hs, List.forall_mem_cons, h1]

/-- The frames a loop run renders are exactly the indices it was given,
provided it does not fault. -/
theorem renderLoop_outs_of_fault_none (frames : List Grid) :
    ∀ (ts : List Nat) (acc : ℚ × ℚ),
      (renderLoop frames ts acc).fault = none →
      (renderLoop frames ts acc).outs.map (fun o => o.t) = ts := by
  intro ts
  induction ts with
  | nil => intro acc _; simp [renderLoop]
  | cons t ts ih =>
    intro acc hf
    have hmem := (renderLoop_fault_none_iff frames (t :: ts) acc).mp hf
    have h1 := (hmem t (List.mem_cons_self t ts)).1
    have h2 := (hmem t (List.mem_cons_self t ts)).2
    have hs := renderStep_ok frames t acc h1 h2
    simp only [renderLoop, hs] at hf ⊢
    simp only [List.map_cons, List.cons.injEq, true_and]
    exact ih _ hf

/-- The element the loop's output list holds at position `i` belongs to time
index `s + i`, and displays the cumulative counters over the frame-local
point count. -/
theorem renderLoop_get (frames : List Grid) :
    ∀ (n s : Nat) (acc : ℚ × ℚ) (i : Nat) (out : FrameOut),
      (renderLoop frames (List.range' s n) acc).outs.get? i = some out →
      out.t = s + i
      ∧ out.fraction_cold
          = (acc.1 + ((List.range' s (i + 1)).map
              (fun j => (countCold (dataAt frames j) : ℚ))).sum)
            / ((dataAt frames (s + i)).length : ℚ)
      ∧ out.fraction_hot
          = (acc.2 + ((List.range' s (i + 1)).map
              (fun j => (countHot (dataAt frames j) : ℚ))).sum)
            / ((dataAt frames (s + i)).length : ℚ) := by
  intro n
  induction n with
  | zero =>
    intro s acc i out h
    simp [renderLoop] at h
  | succ n ih =>
    intro s acc i out h
    rw [List.range'_succ] at h
    by_cases h1 : s < frames.length
    · by_cases h2 : dataAt frames s = []
      · have hs := renderStep_err_empty frames s acc h1 h2
        simp [renderLoop, hs] at h
      · have hs := renderStep_ok frames s acc h1 h2
        cases i with
        | zero =>
          simp only [renderLoop, hs, List.get?] at h
          injection h with h
          subst h
          refine ⟨by simp, ?_, ?_⟩ <;> simp [List.range']
        | succ i =>
          simp only [renderLoop, hs, List.get?] at h
          obtain ⟨ht, hc, hh⟩ := ih (s + 1)
            (acc.1 + (countCold (dataAt frames s) : ℚ),
             acc.2 + (countHot (dataAt frames s) : ℚ)) i out h
          dsimp only at hc hh
          have hidx : s + 1 + i = s + (i + 1) := by omega
          have hexp := List.range'_succ s (i + 1) 1
          refine ⟨by omega, ?_, ?_⟩
          · rw [hc, hidx, hexp, List.map_cons, List.sum_cons]
            ring
          · rw [hh, hidx, hexp, List.map_cons, List.sum_cons]
            ring
    · have hs := renderStep_err_idx frames s acc h1
      simp [renderLoop, hs] at h

/-- Claim C7: the `i`-th rendered frame of a loop over
`range(start_idx, end_idx)` is the frame at time `start_idx + i`, and its
displayed cold (resp. hot) ratio is the sum of the per-frame cold (resp.
hot) counts of all frames rendered so far, divided by the point count of
the current frame alone. -/
theorem claim_C7 (frames : List Grid) (s e i : Nat) (out : FrameOut)
    (h : (Render.make_plots frames s e).outs.get? i = some out) :
    out.t = s + i
    ∧ out.fraction_cold
        = ((List.range' s (i + 1)).map
            (fun j => (countCold (dataAt frames j) : ℚ))).sum
          / ((dataAt frames (s + i)).length : ℚ)
    ∧ out.fraction_hot
        = ((List.range' s (i + 1)).map
            (fun j => (countHot (dataAt frames j) : ℚ))).sum
          / ((dataAt frames (s + i)).length : ℚ) := by
  have h2 := renderLoop_get frames (e - s) s (0, 0) i out h
  simpa using h2

/-- Witness for C7: a concrete one-frame dataset with values 3 and -3; the
single rendered frame displays ratio 1/2 on both sides. -/
theorem claim_C7_witness :
    (Render.make_plots [[some 3, none, some (-3)]] 0 1).outs.get? 0
      = some ⟨0, 1 / 2, 1 / 2⟩
    ∧ ((⟨0, 1 / 2, 1 / 2⟩ : FrameOut).t = 0 + 0
      ∧ (⟨0, 1 / 2, 1 / 2⟩ : FrameOut).fraction_cold
          = ((List.range' 0 (0 + 1)).map
              (fun j => (countCold (dataAt [[some 3, none, some (-3)]] j) : ℚ))).sum
            / ((dataAt [[some 3, none, some (-3)]] (0 + 0)).length : ℚ)
      ∧ (⟨0, 1 / 2, 1 / 2⟩ : FrameOut).fraction_hot
          = ((List.range' 0 (0 + 1)).map
              (fun j => (countHot (dataAt [[some 3, none, some (-3)]] j) : ℚ))).sum
            / ((dataAt [[some 3, none, some (-3)]] (0 + 0)).length : ℚ)) := by
  have hyp : (Render.make_plots [[some 3, none, some (-3)]] 0 1).outs.get? 0
      = some ⟨0, 1 / 2, 1 / 2⟩ := by
    have h0 : (Render.make_plots [[some 3, none, some (-3)]] 0 1).outs.get? 0
        = some ⟨0,
            ((0 : ℚ) + (countCold (dataAt [[some 3, none, some (-3)]] 0) : ℚ))
              / ((dataAt [[some 3, none, some (-3)]] 0).length : ℚ),
            ((0 : ℚ) + (countHot (dataAt [[some 3, none, some (-3)]] 0) : ℚ))
              / ((dataAt [[some 3, none, some (-3)]] 0).length : ℚ)⟩ := rfl
    have hc : countCold (dataAt [[some 3, none, some (-3)]] 0) = 1 := by decide
    have hh : countHot (dataAt [[some 3, none, some (-3)]] 0) = 1 := by decide
    have hl : (dataAt [[some 3, none, some (-3)]] 0).length = 2 := by decide
    rw [h0, hc, hh, hl]
    norm_num
  exact ⟨hyp, claim_C7 [[some 3, none, some (-3)]] 0 1 0 ⟨0, 1 / 2, 1 / 2⟩ hyp⟩

/-- Running the loop never decreases the counter pair below its starting
value. -/
theorem renderLoop_acc_le (frames : List Grid) :
    ∀ (ts : List Nat) (acc : ℚ × ℚ),
      acc.1 ≤ (renderLoop frames ts acc).acc.1
      ∧ acc.2 ≤ (renderLoop frames ts acc).acc.2 := by
  intro ts
  induction ts with
  | nil => intro acc; simp [renderLoop]
  | cons t ts ih =>
    intro acc
    by_cases h1 : t < frames.length
    · by_cases h2 : dataAt frames t = []
      · have hs := renderStep_err_empty frames t acc h1 h2
        simp [renderLoop, hs]
      · have hs := renderStep_ok frames t acc h1 h2
        simp only [renderLoop, hs]
        have hle := ih (acc.1 + (countCold (dataAt frames t) : ℚ),
          acc.2 + (countHot (dataAt frames t) : ℚ))
        constructor
        · calc acc.1 ≤ acc.1 + (countCold (dataAt frames t) : ℚ) :=
              le_add_of_nonneg_right (Nat.cast_nonneg _)
            _ ≤ _ := hle.1
        · calc acc.2 ≤ acc.2 + (countHot (dataAt frames t) : ℚ) :=
              le_add_of_nonneg_right (Nat.cast_nonneg _)
            _ ≤ _ := hle.2
    · have hs := renderStep_err_idx frames t acc h1
      simp [renderLoop, hs]

/-- Extending the visited index list can only grow the final counters —
also across a fault, since a fault freezes the counters at the point where
it aborts the loop. -/
theorem renderLoop_prefix_acc_le (frames : List Grid) (ts2 : List Nat) :
    ∀ (ts1 : List Nat) (acc : ℚ × ℚ),
      (renderLoop frames ts1 acc).acc.1 ≤ (renderLoop frames (ts1 ++ ts2) acc).acc.1
      ∧ (renderLoop frames ts1 acc).acc.2 ≤ (renderLoop frames (ts1 ++ ts2) acc).acc.2 := by
  intro ts1
  induction ts1 with
  | nil =>
    intro acc
    simpa [renderLoop] using renderLoop_acc_le frames ts2 acc
  | cons t ts ih =>
    intro acc
    cases hs : renderStep frames t acc with
    | error f => simp [renderLoop, hs]
    | ok p => simpa [renderLoop, hs] using ih p.2

/-- Claim C8: across increasing prefixes of the rendered range, both
running counters are non-decreasing, starting from zero. -/
theorem claim_C8 (frames : List Grid) (s t1 t2 : Nat) (h : t1 ≤ t2) :
    (Render.make_plots frames s (s + t1)).acc.1
        ≤ (Render.make_plots frames s (s + t2)).acc.1
    ∧ (Render.make_plots frames s (s + t1)).acc.2
        ≤ (Render.make_plots frames s (s + t2)).acc.2 := by
  unfold Render.make_plots
  rw [Nat.add_sub_cancel_left, Nat.add_sub_cancel_left]
  have hsplit : List.range' s t2 = List.range' s t1 ++ List.range' (s + t1) (t2 - t1) := by
    rw [List.range'_append_1]
    congr 1
    omega
  rw [hsplit]
  exact renderLoop_prefix_acc_le frames (List.range' (s + t1) (t2 - t1)) (List.range' s t1) (0, 0)

/-- Witness for C8 on a concrete two-frame dataset. -/
theorem claim_C8_witness :
    (0 : Nat) ≤ 2
    ∧ ((Render.make_plots [[some (-3)], [some 3]] 0 (0 + 0)).acc.1
          ≤ (Render.make_plots [[some (-3)], [some 3]] 0 (0 + 2)).acc.1
      ∧ (Render.make_plots [[some (-3)], [some 3]] 0 (0 + 0)).acc.2
          ≤ (Render.make_plots [[some (-3)], [some 3]] 0 (0 + 2)).acc.2) :=
  ⟨by decide, claim_C8 [[some (-3)], [some 3]] 0 0 2 (by decide)⟩

/-- Counterexample to claim C6 as stated: a data point exactly at a
threshold is NOT counted into the corresponding extreme-side counter — the
comparisons on lines 158-159 are strict, and a one-frame dataset holding
exactly the two threshold values leaves both counters at zero. -/
theorem claim_C6_counterexample :
    countCold [left_line] = 0
    ∧ countHot [right_line] = 0
    ∧ (Render.make_plots [[some left_line, some right_line]] 0 1).acc = (0, 0) := by
  refine ⟨by decide, by decide, ?_⟩
  have h0 : (Render.make_plots [[some left_line, some right_line]] 0 1).acc
      = ((0 : ℚ) + (countCold (dataAt [[some left_line, some right_line]] 0) : ℚ),
         (0 : ℚ) + (countHot (dataAt [[some left_line, some right_line]] 0) : ℚ)) := rfl
  have hc : countCold (dataAt [[some left_line, some right_line]] 0) = 0 := by decide
  have hh : countHot (dataAt [[some left_line, some right_line]] 0) = 0 := by decide
  rw [h0, hc, hh]
  norm_num

/-- Claim C6, amended: tail classification is boundary exclusive — a
filtered data point exactly equal to a threshold contributes to neither
running counter. -/
theorem claim_C6 (v : ℚ) (data : List ℚ) :
    (v = left_line → countCold (v :: data) = countCold data)
    ∧ (v = right_line → countHot (v :: data) = countHot data) := by
  constructor
  · intro hv
    subst hv
    have hd : decide (left_line < left_line) = false := by decide
    simp [countCold, List.countP_cons, hd]
  · intro hv
    subst hv
    have hd : decide (right_line < right_line) = false := by decide
    simp [countHot, List.countP_cons, hd]

/-- Witness for C6's amended claim at the thresholds themselves. -/
theorem claim_C6_witness :
    countCold [left_line] = countCold ([] : List ℚ)
    ∧ countHot [right_line] = countHot ([] : List ℚ) :=
  ⟨(claim_C6 left_line []).1 rfl, (claim_C6 right_line []).2 rfl⟩

/-- Claim C10: the ratio computation divides by the current frame's point
count with no guard, so the loop completes exactly when every visited index
is in range and its frame holds at least one finite value; an all-NaN frame
in the range makes it fault. -/
theorem claim_C10 (frames : List Grid) (ts : List Nat) (acc : ℚ × ℚ) :
    (renderLoop frames ts acc).fault = none
      ↔ ∀ t ∈ ts, t < frames.length ∧ dataAt frames t ≠ [] :=
  renderLoop_fault_none_iff frames ts acc

/-- Witness for C10: a concrete all-NaN frame faults with
`ZeroDivisionError`; replacing the NaN with a finite value completes. -/
theorem claim_C10_witness :
    ((renderLoop [[none]] [0] (0, 0)).fault = none
      ↔ ∀ t ∈ [0], t < ([[none]] : List Grid).length ∧ dataAt [[none]] t ≠ [])
    ∧ (renderLoop [[none]] [0] (0, 0)).fault = some Fault.zeroDivisionError
    ∧ (renderLoop [[some 0]] [0] (0, 0)).fault = none :=
  ⟨claim_C10 [[none]] [0] (0, 0), by decide, by decide⟩

/-- `lexLt` ignores a shared prefix. -/
theorem lexLt_append_left (p x y : List Char) :
    lexLt (p ++ x) (p ++ y) = lexLt x y := by
  induction p with
  | nil => rfl
  | cons c p ih =>
    show (if c < c then true else if c < c then false else lexLt (p ++ x) (p ++ y))
      = lexLt x y
    rw [if_neg (lt_irrefl c), if_neg (lt_irrefl c), ih]

/-- Digit characters compare like their digit values. -/
theorem digitChar_lt_digitChar (a b : Nat) (ha : a < 10) (hb : b < 10)
    (h : a < b) : digitChar a < digitChar b := by
  interval_cases a <;> interval_cases b <;> decide

/-- `lexLt` unfolded on two cons cells. -/
theorem lexLt_cons (a b : Char) (xs ys : List Char) :
    lexLt (a :: xs) (b :: ys)
      = if a < b then true else if b < a then false else lexLt xs ys := rfl

/-- Equal-width decimal renderings of distinct values compare
lexicographically like the values, whatever suffixes follow. -/
theorem digitsBE_lexLt :
    ∀ (w a b : Nat), a < b → b < 10 ^ w →
      ∀ (x y : List Char), lexLt (digitsBE w a ++ x) (digitsBE w b ++ y) = true := by
  intro w
  induction w with
  | zero =>
    intro a b hab hb
    simp only [pow_zero] at hb
    omega
  | succ w ih =>
    intro a b hab hb x y
    have hbq : b / 10 ^ w < 10 := by
      apply Nat.div_lt_of_lt_mul
      calc b < 10 ^ (w + 1) := hb
        _ = 10 ^ w * 10 := by ring
    have haq : a / 10 ^ w < 10 := by
      apply Nat.div_lt_of_lt_mul
      calc a < 10 ^ (w + 1) := lt_trans hab hb
        _ = 10 ^ w * 10 := by ring
    have hle : a / 10 ^ w ≤ b / 10 ^ w := Nat.div_le_div_right (le_of_lt hab)
    show lexLt (digitChar (a / 10 ^ w % 10) :: (digitsBE w (a % 10 ^ w) ++ x))
        (digitChar (b / 10 ^ w % 10) :: (digitsBE w (b % 10 ^ w) ++ y)) = true
    rw [Nat.mod_eq_of_lt haq, Nat.mod_eq_of_lt hbq, lexLt_cons]
    rcases lt_or_eq_of_le hle with hlt | heq
    · rw [if_pos (digitChar_lt_digitChar _ _ haq hbq hlt)]
    · rw [heq, if_neg (lt_irrefl _), if_neg (lt_irrefl _)]
      have hmodb : b % 10 ^ w < 10 ^ w := Nat.mod_lt _ (by positivity)
      have hmoda : a % 10 ^ w < b % 10 ^ w := by
        have h1 := Nat.div_add_mod a (10 ^ w)
        have h2 := Nat.div_add_mod b (10 ^ w)
        rw [heq] at h1
        omega
      exact ih _ _ hmoda hmodb x y

/-- Below 10^7 the format pads to exactly 7 digits. -/
theorem format07_eq (t : Nat) (h : t < 10 ^ 7) : format07 t = digitsBE 7 t := by
  unfold format07
  rw [if_pos h]

/-- Frame filenames of indices below 10^7 compare lexicographically like
the indices. -/
theorem frameName_lexLt (a b : Nat) (hab : a < b) (hb : b < 10 ^ 7) :
    lexLt (frameName a) (frameName b) = true := by
  unfold frameName
  rw [format07_eq a (lt_trans hab hb), format07_eq b hb,
    List.append_assoc, List.append_assoc, lexLt_append_left]
  exact digitsBE_lexLt 7 a b hab hb _ _

/-- Counterexample to claim C9 as stated: (i) a one-frame range over an
all-NaN frame writes 0 files, not 1, because the loop faults before its
`savefig`; (ii) at seven-digit overflow the zero-padded names no longer
sort chronologically: the name of frame 10000000 sorts before the name of
frame 9999999. -/
theorem claim_C9_counterexample :
    (writtenFiles (Render.make_plots [[none]] 0 1)).length = 0
    ∧ (0 : Nat) ≠ 1
    ∧ 9999999 < 10000000
    ∧ lexLt (frameName 10000000) (frameName 9999999) = true := by
  refine ⟨by decide, by decide, by decide, by decide⟩

/-- Claim C9, amended: provided every frame of the range keeps at least one
finite value (else the loop faults early, see C10) and `end_idx ≤ 10^7`
(so indices fit the 7-digit padding), the loop writes exactly
`end_idx - start_idx` files, one per time index in increasing order, and
the filenames sort lexicographically in chronological order. -/
theorem claim_C9 (frames : List Grid) (s n : Nat)
    (hok : ∀ t ∈ List.range' s n, t < frames.length ∧ dataAt frames t ≠ [])
    (hbound : s + n ≤ 10 ^ 7) :
    (Render.make_plots frames s (s + n)).outs.map (fun o => o.t) = List.range' s n
    ∧ (writtenFiles (Render.make_plots frames s (s + n))).length = n
    ∧ List.Pairwise (fun a b => lexLt a b = true)
        (writtenFiles (Render.make_plots frames s (s + n))) := by
  have hmk : Render.make_plots frames s (s + n)
      = renderLoop frames (List.range' s n) (0, 0) := by
    unfold Render.make_plots
    rw [Nat.add_sub_cancel_left]
  have hf : (renderLoop frames (List.range' s n) (0, 0)).fault = none :=
    (renderLoop_fault_none_iff frames _ _).mpr hok
  have houts := renderLoop_outs_of_fault_none frames (List.range' s n) (0, 0) hf
  have hlen : (renderLoop frames (List.range' s n) (0, 0)).outs.length = n := by
    have hcongr := congrArg List.length houts
    simpa using hcongr
  rw [hmk]
  refine ⟨houts, ?_, ?_⟩
  · unfold writtenFiles
    rw [List.length_map]
    exact hlen
  · have hmap : writtenFiles (renderLoop frames (List.range' s n) (0, 0))
        = (List.range' s n).map frameName := by
      unfold writtenFiles
      rw [show (fun o : FrameOut => frameName o.t)
          = frameName ∘ (fun o : FrameOut => o.t) from rfl]
      rw [← List.map_map, houts]
    rw [hmap]
    refine List.pairwise_map.mpr ?_
    have hp : List.Pairwise (· < ·) (List.range' s n) := List.pairwise_lt_range' s n
    refine hp.imp_of_mem ?_
    intro a b hma hmb hab
    have hbb : b < 10 ^ 7 := by
      have hmem := (List.mem_range'_1.mp hmb).2
      omega
    exact frameName_lexLt a b hab hbb

/-- Witness for C9's amended claim on a concrete one-frame dataset. -/
theorem claim_C9_witness :
    (∀ t ∈ List.range' 0 1, t < ([[some 0]] : List Grid).length
      ∧ dataAt [[some 0]] t ≠ [])
    ∧ 0 + 1 ≤ 10 ^ 7
    ∧ ((Render.make_plots [[some 0]] 0 (0 + 1)).outs.map (fun o => o.t)
        = List.range' 0 1
      ∧ (writtenFiles (Render.make_plots [[some 0]] 0 (0 + 1))).length = 1
      ∧ List.Pairwise (fun a b => lexLt a b = true)
          (writtenFiles (Render.make_plots [[some 0]] 0 (0 + 1)))) :=
  ⟨by decide, by decide, claim_C9 [[some 0]] 0 1 (by decide) (by decide)⟩

end DataViz
